import Mathlib

/-!
# Shallow embedding of the termodoro clock/session engine

Definitions are translated from `src/termodoro.py` (with `src/pomo.py` holding a
line-identical copy of the slope routine). Python ints become `ℤ`/`ℕ`; the float
arithmetic of the geometry engine is modelled over `ℝ` (with exact rational
inputs), and a Python float that may be NaN is modelled by the tagged type
`Flt`, whose comparison operators follow IEEE-754: every comparison involving
NaN, including `nan == nan`, is false. Methods that mutate state are modelled
as state transformers; methods that only read return plain values. Lists of
cells are modelled by their sets of cells (order and duplication play no role
in the properties considered). The file-append logging inside
`SessionState.next_long` is an I/O side effect with no influence on any
returned value and is elided.
-/

namespace Termodoro

/-- `NANO_PER_SECOND` from termodoro.py line 9. -/
def NANO_PER_SECOND : ℤ := 1000000000

/-! ## SessionState (termodoro.py lines 164-196) -/

/-- The fields of `SessionState`: the stored durations are in seconds. -/
structure SessionState where
  before_long : ℤ
  work_duration : ℤ
  short_duration : ℤ
  long_duration : ℤ
  round : ℤ
deriving DecidableEq

/-- `SessionState.__init__` (lines 167-174). All duration parameters are in
minutes. The source assigns `self.__short_duration = long_duration * 60` and
`self.__long_duration = short_duration * 60` (lines 171-172), which this
embedding reproduces verbatim. -/
def SessionState.make (work_duration short_duration long_duration before_long : ℤ) :
    SessionState :=
  { before_long := before_long
    work_duration := work_duration * 60
    short_duration := long_duration * 60
    long_duration := short_duration * 60
    round := 0 }

/-- `SessionState.get_work` (lines 176-177): `return self.__work_duration`.
Modelled as a state transformer; the method body reads but never writes
`self`, so the returned state is the input state. -/
def SessionState.get_work (s : SessionState) : ℤ × SessionState :=
  (s.work_duration, s)

/-- `SessionState.next_long` (lines 185-189):
`before_long - (round - round // before_long * before_long)`, with Python's
floor division `//` rendered as `Int.fdiv`. -/
def SessionState.next_long (s : SessionState) : ℤ :=
  s.before_long - (s.round - Int.fdiv s.round s.before_long * s.before_long)

/-- `SessionState.get_break` (lines 179-183). -/
def SessionState.get_break (s : SessionState) : ℤ :=
  if s.next_long = 0 then s.long_duration else s.short_duration

/-- `SessionState.completed` (lines 191-193). -/
def SessionState.completed (s : SessionState) : ℤ :=
  s.round

/-- `SessionState.increment` (lines 195-196). -/
def SessionState.increment (s : SessionState) : SessionState :=
  { s with round := s.round + 1 }

/-! ## Clock timer state (termodoro.py lines 31-74)

The wall clock `time.time_ns()` is made explicit: every query takes the
current time `now` in nanoseconds as an argument. -/

/-- The fields of `Clock`: `__start_time` and `__nano_seconds` in nanoseconds,
`__hand_length` a ratio. -/
structure Clock where
  start_time : ℤ
  nano_seconds : ℤ
  hand_length : ℚ

/-- `Clock.__init__` (lines 39-43), with construction time `now`. -/
def Clock.make (now : ℤ) (seconds : ℤ) (hand_length : ℚ) : Clock :=
  { start_time := now
    nano_seconds := seconds * NANO_PER_SECOND
    hand_length := hand_length }

/-- `Clock.is_done` (lines 57-62): `time.time_ns() - start_time >= nano_seconds`. -/
def Clock.is_done (c : Clock) (now : ℤ) : Bool :=
  decide (now - c.start_time ≥ c.nano_seconds)

/-- `Clock.reset` (lines 64-66). -/
def Clock.reset (c : Clock) (now : ℤ) : Clock :=
  { c with start_time := now }

/-- `Clock.set_duration` (lines 68-69). -/
def Clock.set_duration (c : Clock) (seconds : ℤ) : Clock :=
  { c with nano_seconds := seconds * NANO_PER_SECOND }

/-- `Clock.seconds_remaining` (lines 71-74):
`max(0, ceil((nano_seconds - elapsed) / NANO_PER_SECOND))`. -/
def Clock.seconds_remaining (c : Clock) (now : ℤ) : ℤ :=
  max 0 ⌈((c.nano_seconds - (now - c.start_time) : ℤ) : ℚ) / (NANO_PER_SECOND : ℚ)⌉

/-- The elapsed-time fraction computed inside `Clock.__hand_coordinates`
(lines 79-80): `min(time_elapsed / nano_seconds, 1.0)`. -/
def Clock.percent_elapsed (c : Clock) (now : ℤ) : ℚ :=
  min (((now - c.start_time : ℤ) : ℚ) / ((c.nano_seconds : ℤ) : ℚ)) 1

/-! ## Python floats with NaN -/

/-- A Python float as the geometry engine uses it: NaN or a real value. -/
inductive Flt where
  | nan : Flt
  | fin : ℝ → Flt

namespace Flt

/-- Python's `==` on floats: NaN compares unequal to everything, itself included. -/
def ieee_eq : Flt → Flt → Prop
  | fin a, fin b => a = b
  | _, _ => False

/-- Python's `<` on floats: any comparison involving NaN is false. -/
def ieee_lt : Flt → Flt → Prop
  | fin a, fin b => a < b
  | _, _ => False

/-- Float multiplication: NaN propagates. -/
def mul : Flt → Flt → Flt
  | fin a, fin b => fin (a * b)
  | _, _ => nan

/-- Float addition: NaN propagates. -/
def add : Flt → Flt → Flt
  | fin a, fin b => fin (a + b)
  | _, _ => nan

/-- Float subtraction: NaN propagates. -/
def sub : Flt → Flt → Flt
  | fin a, fin b => fin (a - b)
  | _, _ => nan

/-- Python's `abs` on floats: `abs(nan)` is NaN. -/
def fabs : Flt → Flt
  | fin a => fin |a|
  | nan => nan

noncomputable instance : (a b : Flt) → Decidable (ieee_lt a b)
  | fin a, fin b => inferInstanceAs (Decidable (a < b))
  | fin _, nan => .isFalse fun h => h
  | nan, fin _ => .isFalse fun h => h
  | nan, nan => .isFalse fun h => h

noncomputable instance : (a b : Flt) → Decidable (ieee_eq a b)
  | fin a, fin b => inferInstanceAs (Decidable (a = b))
  | fin _, nan => .isFalse fun h => h
  | nan, fin _ => .isFalse fun h => h
  | nan, nan => .isFalse fun h => h

end Flt

/-! ## Clock geometry (termodoro.py lines 76-161) -/

/-- `Clock.__get_slope` (lines 135-161). `math.radians(d)` is `d * π / 180`;
Python's float floor division `degrees // 90` is `⌊degrees / 90⌋` (the
intermediate angles are exact rationals). -/
noncomputable def get_slope (percent_elapsed : ℚ) : Flt :=
  let degrees0 : ℚ := percent_elapsed * 360
  let degrees : ℚ := degrees0 + (if degrees0 ≤ 270 then 90 else -270)
  let first_quad_eq_degrees : ℚ := degrees - ⌊degrees / 90⌋ * 90
  if degrees ≤ 90 ∨ (180 ≤ degrees ∧ degrees ≤ 270) then
    if first_quad_eq_degrees ≠ 90 then
      Flt.fin (-Real.tan ((first_quad_eq_degrees : ℝ) * Real.pi / 180))
    else Flt.nan
  else
    if first_quad_eq_degrees ≠ 0 then
      Flt.fin (Real.tan (((90 - first_quad_eq_degrees : ℚ) : ℝ) * Real.pi / 180))
    else Flt.nan

/-- `Clock.__center_distance` (lines 131-133). -/
noncomputable def center_distance (x y radius : ℕ) : ℝ :=
  Real.sqrt (((x : ℝ) - (radius : ℝ)) ^ 2 + ((y : ℝ) - (radius : ℝ)) ^ 2)

/-- `Clock.__clock_coordinates` (lines 116-129): the center cell
unconditionally, plus every cell of `[0, diameter] × [0, diameter]` whose
distance from the center is within `0.5` of the radius. -/
noncomputable def clock_coordinates (diameter : ℕ) : Set (ℕ × ℕ) :=
  let radius := diameter / 2
  {c | c = (radius, radius) ∨
       (c.1 ≤ diameter ∧ c.2 ≤ diameter ∧
        (radius : ℝ) - 1/2 < center_distance c.1 c.2 radius ∧
        center_distance c.1 c.2 radius < (radius : ℝ) + 1/2)}

/-- The hand tolerance (line 101): `abs(slope) if abs(slope) > .5 else .5`.
When `slope` is NaN, `abs(slope) > .5` is false, so the result is `0.5`. -/
noncomputable def hand_tolerance (slope : Flt) : Flt :=
  if Flt.ieee_lt (Flt.fin (1/2)) slope.fabs then slope.fabs else Flt.fin (1/2)

/-- `Clock.__hand_coordinates` (lines 76-114) with the elapsed fraction as an
argument. The quadrant ranges (lines 85-96) are inclusive integer intervals
(`range(a, b + 1)` scans `[a, b]`); the vertical-collapse guard (lines 98-99)
and the in-band guard (line 110) compare `slope == math.nan` with IEEE
semantics, exactly as Python does. -/
noncomputable def hand_coordinates (diameter : ℕ) (hand_length : ℚ)
    (percent_elapsed : ℚ) : Set (ℕ × ℕ) :=
  let radius := diameter / 2
  let slope := get_slope percent_elapsed
  let ranges : (ℕ × ℕ) × (ℕ × ℕ) :=
    if percent_elapsed ≤ 1/4 ∨ percent_elapsed = 1 then
      ((0, radius), (radius, diameter))
    else if 1/4 < percent_elapsed ∧ percent_elapsed ≤ 1/2 then
      ((radius, diameter), (radius, diameter))
    else if 1/2 < percent_elapsed ∧ percent_elapsed ≤ 3/4 then
      ((radius, diameter), (0, radius))
    else
      ((0, radius), (0, radius))
  let y_range := ranges.1
  let x_range := if Flt.ieee_eq slope Flt.nan then (radius, radius) else ranges.2
  let tolerance := hand_tolerance slope
  {c | x_range.1 ≤ c.1 ∧ c.1 ≤ x_range.2 ∧ y_range.1 ≤ c.2 ∧ c.2 ≤ y_range.2 ∧
       (Flt.ieee_eq slope Flt.nan ∨
        (Flt.ieee_lt (Flt.sub (Flt.fin ((radius : ℝ) - (c.2 : ℝ))) tolerance)
           (Flt.mul (Flt.fin ((c.1 : ℝ) - (radius : ℝ))) slope) ∧
         Flt.ieee_lt (Flt.mul (Flt.fin ((c.1 : ℝ) - (radius : ℝ))) slope)
           (Flt.add (Flt.fin ((radius : ℝ) - (c.2 : ℝ))) tolerance))) ∧
       center_distance c.1 c.2 radius < (radius : ℝ) * (hand_length : ℝ) + 1/2}

/-- `Clock.coordinates` (lines 45-55): the rim always, the hand only while the
clock is not done. -/
noncomputable def Clock.coordinates (c : Clock) (now : ℤ) (diameter : ℕ) :
    Set (ℕ × ℕ) :=
  if c.is_done now then clock_coordinates diameter
  else clock_coordinates diameter ∪
    hand_coordinates diameter c.hand_length (c.percent_elapsed now)

end Termodoro

namespace Termodoro

/-! ## Helper lemmas -/

theorem Flt.not_ieee_eq_nan (a : Flt) : ¬ a.ieee_eq Flt.nan := by
cases a <;> exact fun h => h

theorem Flt.not_ieee_lt_nan (a : Flt) : ¬ a.ieee_lt Flt.nan := by
cases a <;> exact fun h => h

theorem Flt.mul_nan (a : Flt) : a.mul Flt.nan = Flt.nan := by
cases a <;> rfl

theorem get_slope_zero : get_slope 0 = Flt.fin 0 := by
unfold get_slope
norm_num [Real.tan_zero]

theorem get_slope_one : get_slope 1 = Flt.fin 0 := by
unfold get_slope
norm_num [Real.tan_zero]

theorem get_slope_quarter : get_slope (1/4) = Flt.fin 0 := by
unfold get_slope
norm_num [Real.tan_zero]

theorem get_slope_half : get_slope (1/2) = Flt.fin 0 := by
unfold get_slope
norm_num [Real.tan_zero]

theorem get_slope_three_quarters : get_slope (3/4) = Flt.nan := by
unfold get_slope
norm_num

theorem clock_coordinates_center_mem (d : ℕ) :
    (d / 2, d / 2) ∈ clock_coordinates d := by
unfold clock_coordinates
exact Or.inl rfl

/-! ## Claim theorems -/

/-- Claim C1 (code evaluation at the failing input): for
`SessionState(work=30, short=5, long=15, before_long=4)` freshly constructed,
`next_long()` is `4 ≠ 0`, yet `get_break()` returns `900 = 15*60` (the
configured long-break in seconds) instead of the short-break `300 = 5*60`
that the claim requires whenever `next_long() ≠ 0`: the constructor stores
the long-break minutes in `__short_duration` and vice versa. -/
theorem c1_get_break_swapped :
    (SessionState.make 30 5 15 4).next_long ≠ 0 ∧
    (SessionState.make 30 5 15 4).get_break = 15 * 60 ∧
    (SessionState.make 30 5 15 4).get_break ≠ 5 * 60 := by
decide

/-- Claim C2 (code evaluation at the failing inputs): the slope function
yields the finite slope `0` at `percentElapsed ∈ {0, 0.25, 0.5}` and the NaN
sentinel at `percentElapsed = 0.75` — whereas the claim states NaN at `0` and
`0.5` and the finite slope `0` at `0.75` (only the `0.25` case agrees). -/
theorem c2_slope_cardinal_values :
    get_slope 0 = Flt.fin 0 ∧ get_slope (1/4) = Flt.fin 0 ∧
    get_slope (1/2) = Flt.fin 0 ∧ get_slope (3/4) = Flt.nan :=
⟨get_slope_zero, get_slope_quarter, get_slope_half, get_slope_three_quarters⟩

/-- Claim C3 (code evaluation at the failing input): at
`percentElapsed = 0.75` the slope is the NaN sentinel, but since Python's
`slope == math.nan` is false even for a NaN slope, the horizontal range is
never collapsed, the in-band guard is never bypassed, and every in-band
comparison against NaN is false — so the hand set is empty instead of the
claimed single column `x = radius` filtered by the distance test. -/
theorem c3_vertical_slope_hand_empty :
    hand_coordinates 10 (1/2) (3/4) = ∅ := by
ext c
simp [hand_coordinates, get_slope_three_quarters, Flt.not_ieee_eq_nan,
  Flt.mul_nan, Flt.not_ieee_lt_nan]

/-- Claim C4 (counterexample): one `get_work()` call on a fresh
`SessionState(30, 5, 15, 4)` leaves the round counter at `0`, not `0 + 1`
as the claim's side-effect clause requires. -/
theorem c4_counterexample_no_increment :
    ¬ ((SessionState.make 30 5 15 4).get_work.2.round =
        (SessionState.make 30 5 15 4).round + 1) := by
decide

/-- Claim C4 (amended): `get_work()` returns the configured work duration in
seconds and leaves the session state — in particular the round counter —
unchanged; the round counter is advanced, by exactly one, only by the
separate `increment()` method. -/
theorem c4_get_work_pure :
    (∀ w sh lo b : ℤ, (SessionState.make w sh lo b).get_work.1 = w * 60) ∧
    (∀ st : SessionState, st.get_work.1 = st.work_duration ∧ st.get_work.2 = st) ∧
    (∀ st : SessionState, st.increment.round = st.round + 1) :=
⟨fun _ _ _ _ => rfl, fun _ => ⟨rfl, rfl⟩, fun _ => rfl⟩

/-- Claim C5: with `before_long = 4`, after four `get_work()` calls on a fresh
state the next `get_break()` returns the configured long-break duration in
seconds and (when the two configured values differ) not the short-break one.
(This holds on the code because `get_break()` reads the field that the
constructor filled with the long-break minutes whenever `next_long() ≠ 0`.) -/
theorem c5_break_after_four_get_work (w sh lo : ℤ) (h : sh ≠ lo) :
    (SessionState.make w sh lo 4).get_work.2.get_work.2.get_work.2.get_work.2.get_break
      = lo * 60 ∧
    (SessionState.make w sh lo 4).get_work.2.get_work.2.get_work.2.get_work.2.get_break
      ≠ sh * 60 := by
have h1 : (SessionState.make w sh lo 4).get_work.2.get_work.2.get_work.2.get_work.2.get_break
    = lo * 60 := rfl
refine ⟨h1, ?_⟩
rw [h1]
intro he
exact h (by omega)

theorem c5_break_after_four_get_work_witness :
    ((5 : ℤ) ≠ 15) ∧
    ((SessionState.make 30 5 15 4).get_work.2.get_work.2.get_work.2.get_work.2.get_break
        = 15 * 60 ∧
     (SessionState.make 30 5 15 4).get_work.2.get_work.2.get_work.2.get_work.2.get_break
        ≠ 5 * 60) :=
⟨by decide, c5_break_after_four_get_work 30 5 15 (by decide)⟩

/-- Claim C6: for a clock of positive duration queried at or after its start,
`seconds_remaining` equals `max(0, ceil((durationSeconds*1e9 - elapsedNanos)/1e9))`,
is never negative, is non-increasing as elapsed time grows, and is `0`
whenever `is_done` holds. -/
theorem c6_seconds_remaining_spec (start dur : ℤ) (hl : ℚ) (now now1 now2 : ℤ)
    (hdur : 0 < dur) (hstart : start ≤ now) (h12 : now1 ≤ now2) :
    (Clock.make start dur hl).seconds_remaining now =
      max 0 ⌈((dur * NANO_PER_SECOND - (now - start) : ℤ) : ℚ) / ((NANO_PER_SECOND : ℤ) : ℚ)⌉ ∧
    0 ≤ (Clock.make start dur hl).seconds_remaining now ∧
    (Clock.make start dur hl).seconds_remaining now2 ≤
      (Clock.make start dur hl).seconds_remaining now1 ∧
    ((Clock.make start dur hl).is_done now = true →
      (Clock.make start dur hl).seconds_remaining now = 0) := by
have hN : (0 : ℚ) < ((NANO_PER_SECOND : ℤ) : ℚ) := by norm_num [NANO_PER_SECOND]
refine ⟨rfl, le_max_left _ _, ?_, ?_⟩
· unfold Clock.seconds_remaining Clock.make
  apply max_le_max le_rfl
  apply Int.ceil_le_ceil
  apply (div_le_div_right hN).mpr
  have : (dur * NANO_PER_SECOND - (now2 - start) : ℤ) ≤
      (dur * NANO_PER_SECOND - (now1 - start) : ℤ) := by omega
  exact_mod_cast this
· intro hd
  have hd' : now - (Clock.make start dur hl).start_time ≥
      (Clock.make start dur hl).nano_seconds := of_decide_eq_true hd
  simp only [Clock.make] at hd'
  unfold Clock.seconds_remaining Clock.make
  have hnum : (dur * NANO_PER_SECOND - (now - start) : ℤ) ≤ 0 := by omega
  have hq : ((dur * NANO_PER_SECOND - (now - start) : ℤ) : ℚ) / ((NANO_PER_SECOND : ℤ) : ℚ) ≤ 0 := by
    apply div_nonpos_of_nonpos_of_nonneg
    · exact_mod_cast hnum
    · exact le_of_lt hN
  have hceil : ⌈((dur * NANO_PER_SECOND - (now - start) : ℤ) : ℚ) / ((NANO_PER_SECOND : ℤ) : ℚ)⌉ ≤ 0 := by
    rw [show (0 : ℤ) = ((0 : ℤ) : ℤ) from rfl]
    exact Int.ceil_le.mpr (by exact_mod_cast hq)
  exact max_eq_left hceil

theorem c6_seconds_remaining_spec_witness :
    (0 : ℤ) < 2 ∧ (0 : ℤ) ≤ 3000000000 ∧ (1000000000 : ℤ) ≤ 1500000000 ∧
    ((Clock.make 0 2 (1/2)).seconds_remaining 3000000000 =
      max 0 ⌈((2 * NANO_PER_SECOND - (3000000000 - 0) : ℤ) : ℚ) / ((NANO_PER_SECOND : ℤ) : ℚ)⌉ ∧
     0 ≤ (Clock.make 0 2 (1/2)).seconds_remaining 3000000000 ∧
     (Clock.make 0 2 (1/2)).seconds_remaining 1500000000 ≤
       (Clock.make 0 2 (1/2)).seconds_remaining 1000000000 ∧
     ((Clock.make 0 2 (1/2)).is_done 3000000000 = true →
       (Clock.make 0 2 (1/2)).seconds_remaining 3000000000 = 0)) :=
⟨by decide, by decide, by decide,
 c6_seconds_remaining_spec 0 2 (1/2) 3000000000 1000000000 1500000000
   (by decide) (by decide) (by decide)⟩

/-- Claim C7: for any diameter `d ≥ 2` the rim set contains the center cell
`(radius, radius)`, and every other cell of the rim set has Euclidean distance
from the center within `0.5` of the radius. -/
theorem c7_rim_ring (d : ℕ) (hd : 2 ≤ d) :
    (d / 2, d / 2) ∈ clock_coordinates d ∧
    ∀ c ∈ clock_coordinates d, c ≠ (d / 2, d / 2) →
      |center_distance c.1 c.2 (d / 2) - ((d / 2 : ℕ) : ℝ)| < 1/2 := by
refine ⟨clock_coordinates_center_mem d, ?_⟩
intro c hc hne
simp only [clock_coordinates, Set.mem_setOf_eq] at hc
rcases hc with h | ⟨_, _, hlo, hhi⟩
· exact absurd h hne
· rw [abs_lt]
  constructor <;> linarith

theorem c7_rim_ring_witness :
    2 ≤ 4 ∧
    ((4 / 2, 4 / 2) ∈ clock_coordinates 4 ∧
     ∀ c ∈ clock_coordinates 4, c ≠ (4 / 2, 4 / 2) →
       |center_distance c.1 c.2 (4 / 2) - ((4 / 2 : ℕ) : ℝ)| < 1/2) :=
⟨by norm_num, c7_rim_ring 4 (by norm_num)⟩

/-- Claim C8: for every diameter and hand-length ratio, the hand cell set at
`percentElapsed = 1` coincides with the one at `percentElapsed = 0`: both use
the first-quarter search rectangle and the same slope value. -/
theorem c8_full_revolution (d : ℕ) (hl : ℚ) :
    hand_coordinates d hl 1 = hand_coordinates d hl 0 := by
unfold hand_coordinates
rw [get_slope_one, get_slope_zero]
norm_num

/-- Claim C9: for `before_long ≥ 1` and `round ≥ 0`, `next_long()` equals
`before_long - (round mod before_long)` and always lies in
`[1, before_long]`; in particular it is never `0`. -/
theorem c9_next_long_bounds (s : SessionState) (hb : 1 ≤ s.before_long)
    (hr : 0 ≤ s.round) :
    s.next_long = s.before_long - s.round % s.before_long ∧
    1 ≤ s.next_long ∧ s.next_long ≤ s.before_long := by
have hb0 : (0 : ℤ) ≤ s.before_long := by linarith
have hfd : Int.fdiv s.round s.before_long = s.round / s.before_long :=
  Int.fdiv_eq_ediv _ hb0
have heq : s.next_long = s.before_long - s.round % s.before_long := by
  unfold SessionState.next_long
  rw [hfd, Int.emod_def]
  ring
have hm1 : 0 ≤ s.round % s.before_long := Int.emod_nonneg _ (by linarith)
have hm2 : s.round % s.before_long < s.before_long := Int.emod_lt_of_pos _ (by linarith)
exact ⟨heq, by rw [heq]; omega, by rw [heq]; omega⟩

theorem c9_next_long_bounds_witness :
    1 ≤ ((SessionState.make 30 5 15 4).increment.increment).before_long ∧
    0 ≤ ((SessionState.make 30 5 15 4).increment.increment).round ∧
    (((SessionState.make 30 5 15 4).increment.increment).next_long =
      ((SessionState.make 30 5 15 4).increment.increment).before_long -
        ((SessionState.make 30 5 15 4).increment.increment).round %
          ((SessionState.make 30 5 15 4).increment.increment).before_long ∧
     1 ≤ ((SessionState.make 30 5 15 4).increment.increment).next_long ∧
     ((SessionState.make 30 5 15 4).increment.increment).next_long ≤
       ((SessionState.make 30 5 15 4).increment.increment).before_long) :=
⟨by decide, by decide, c9_next_long_bounds _ (by decide) (by decide)⟩

/-- Claim C10: whenever the clock is done, `coordinates` returns exactly the
rim set — which contains the center pivot — and no hand cells are added. -/
theorem c10_done_renders_rim_only (c : Clock) (now : ℤ) (d : ℕ)
    (h : c.is_done now = true) :
    c.coordinates now d = clock_coordinates d ∧
    (d / 2, d / 2) ∈ c.coordinates now d := by
have h1 : c.coordinates now d = clock_coordinates d := by
  unfold Clock.coordinates
  rw [h]
  exact if_pos rfl
refine ⟨h1, ?_⟩
rw [h1]
exact clock_coordinates_center_mem d

theorem c10_done_renders_rim_only_witness :
    (Clock.make 0 1 (1/2)).is_done NANO_PER_SECOND = true ∧
    ((Clock.make 0 1 (1/2)).coordinates NANO_PER_SECOND 10 = clock_coordinates 10 ∧
     (10 / 2, 10 / 2) ∈ (Clock.make 0 1 (1/2)).coordinates NANO_PER_SECOND 10) :=
⟨by decide, c10_done_renders_rim_only _ _ _ (by decide)⟩

end Termodoro
